import Mathlib

/-
Shallow embedding of the Paragraph block plugin (src/index.js, an Editor.js
paragraph tool). The plugin owns one contenteditable DIV element; the element
markup (innerHTML) is the live store of the text, the record `_data` stores
text, alignment and any further keys. We embed the DOM element as a record of
the fields the plugin touches, JS objects with optional keys as records with
Option fields plus an association list for further keys, and the methods as
explicit state-passing functions. A JS operation that can throw returns its
partial state together with a thrown flag, or an Except value.
-/

namespace Paragraph

/-- JS truthiness of a string value: every string except the empty one. -/
def truthyS (s : String) : Bool := s ≠ ""

/-- JS `a || b` where `a` is an optional (possibly undefined) string and `b`
a string: yields `a` when present and truthy, else `b`. -/
def jsOrS (a : Option String) (b : String) : String :=
  match a with
  | some s => if s = "" then b else s
  | none => b

/-- JS string concatenation `a + b` where either operand may be undefined:
an undefined operand is coerced to the string "undefined". -/
def jsConcat (a b : Option String) : String :=
  (match a with | some s => s | none => "undefined") ++
  (match b with | some s => s | none => "undefined")

/-- Whitespace recognised by `String.prototype.trim` (ECMAScript WhiteSpace
and LineTerminator code points; the common ones). -/
def jsIsWhitespace (c : Char) : Bool :=
  c = ' ' || c = '\t' || c = '\n' || c = '\r' || c = '\x0b' || c = '\x0c' ||
  c = '\u00A0' || c = '\uFEFF' || c = '\u2028' || c = '\u2029'

/-- JS `s.trim()`: drop leading and trailing whitespace. -/
def jsTrim (s : String) : String :=
  String.mk (((s.data.dropWhile jsIsWhitespace).reverse.dropWhile
    jsIsWhitespace).reverse)

/-- static get ALIGNMENTS: the allowed paragraph alignments, in the order of
`Object.values` of the literal. -/
def ALIGNMENTS : List String := ["left", "center", "right"]

/-- static get DEFAULT_ALIGNMENT, i.e. ALIGNMENTS.left. -/
def DEFAULT_ALIGNMENT : String := "left"

/-- static get DEFAULT_PLACEHOLDER. -/
def DEFAULT_PLACEHOLDER : String := ""

/-- Names of the three settings tunes returned by `get settings`, in order. -/
def settingsNames : List String := ["left", "center", "right"]

/-- Embedded DOM element: the fields of the owned DIV that the plugin reads
or writes (class list, contentEditable flag, dataset.placeholder, number of
attached keyup listeners, innerHTML). -/
structure Element where
  classes : List String
  contentEditable : Bool
  datasetPlaceholder : String
  keyupListeners : Nat
  innerHTML : String
deriving Repr, DecidableEq

/-- document.createElement: a fresh element with no classes, not editable,
empty markup. -/
def createElement : Element :=
  { classes := [], contentEditable := false, datasetPlaceholder := "",
    keyupListeners := 0, innerHTML := "" }

/-- classList.add of one token: appended unless already present. -/
def classListAdd (classes : List String) (c : String) : List String :=
  if classes.contains c then classes else classes ++ [c]

/-- classList.remove of one token. -/
def classListRemove (classes : List String) (c : String) : List String :=
  classes.filter (fun x => x ≠ c)

/-- classList.toggle with a force flag: add when the flag is true, remove
when it is false. -/
def classListToggleForce (classes : List String) (c : String) (force : Bool) :
    List String :=
  if force then classListAdd classes c else classListRemove classes c

/-- The BlockData record {text, alignment}: both keys may be absent, and a
JS object may carry further keys, kept as an association list. -/
structure BlockData where
  text : Option String
  alignment : Option String
  extra : List (String × String)
deriving Repr, DecidableEq

/-- The empty object `\x7b\x7d`. -/
def emptyData : BlockData := { text := none, alignment := none, extra := [] }

/-- JS property read `d[k]` on a BlockData object, coerced by `!!` to a
boolean: truthiness of the named own property, false for a missing key. -/
def dataTruthyProp (d : BlockData) (k : String) : Bool :=
  if k = "text" then (match d.text with | some s => truthyS s | none => false)
  else if k = "alignment" then
    (match d.alignment with | some s => truthyS s | none => false)
  else (match d.extra.lookup k with | some v => truthyS v | none => false)

/-- Host styles consumed from api.styles. -/
structure ApiStyles where
  block : String
  settingsButton : String
  settingsButtonActive : String
deriving Repr, DecidableEq

/-- Host api object: style class names and the i18n translation function. -/
structure Api where
  styles : ApiStyles
  i18nT : String → String

/-- Tool configuration supplied by the host; every key may be absent. -/
structure Config where
  placeholder : Option String
  preserveBlank : Option Bool
  defaultAlignment : Option String
deriving Repr, DecidableEq

/-- The this._CSS record built in the constructor. -/
structure CSSNames where
  block : String
  wrapper : String
  settingsWrapper : String
  settingsButton : String
  settingsButtonActive : String
deriving Repr, DecidableEq

/-- Instance state of the plugin: the fields the constructor assigns, plus
`wrapper`, a property the class reads in _toggleTune but never assigns, so it
is undefined (none) on every instance the constructor produces. -/
structure ParagraphState where
  _CSS : CSSNames
  _placeholder : String
  _data : BlockData
  _element : Element
  _preserveBlank : Bool
  wrapper : Option Element

/-- set data(data): replace the whole stored record (empty object when the
argument is null or undefined) and write its text, or the empty string, into
the element markup. -/
def setData (st : ParagraphState) (d : Option BlockData) : ParagraphState :=
  let nd := match d with | some b => b | none => emptyData
  { st with
    _data := nd,
    _element := { st._element with innerHTML := jsOrS nd.text "" } }

/-- The side effect of the data getter: sync _data.text from the element
markup. -/
def dataSync (st : ParagraphState) : ParagraphState :=
  { st with _data := { st._data with text := some st._element.innerHTML } }

/-- get data: syncs _data.text from the element markup and returns the
stored record itself (the post-state `_data`, the same object). -/
def getData (st : ParagraphState) : ParagraphState × BlockData :=
  (dataSync st, (dataSync st)._data)

/-- Alignment resolution in the constructor:
`(Object.values(ALIGNMENTS).includes(data.alignment) && data.alignment) ||
config.defaultAlignment || DEFAULT_ALIGNMENT`. The membership test gives a
truthy member back; a falsy (absent or empty) defaultAlignment falls through
to the default by the JS `||`. -/
def resolveAlignment (dataAlignment cfgDefault : Option String) : String :=
  match dataAlignment with
  | some a =>
      if a ∈ ALIGNMENTS then a else jsOrS cfgDefault DEFAULT_ALIGNMENT
  | none => jsOrS cfgDefault DEFAULT_ALIGNMENT

/-- Modelled from the spec: the priority chain the spec states in its own
words (explicit data.alignment if a member of the allowed set, else
config.defaultAlignment when provided, else the fixed default), to be
compared with `resolveAlignment`, the chain the code computes. -/
def resolveAlignmentSpec (dataAlignment cfgDefault : Option String) : String :=
  match dataAlignment with
  | some a => if a ∈ ALIGNMENTS then a else cfgDefault.getD DEFAULT_ALIGNMENT
  | none => cfgDefault.getD DEFAULT_ALIGNMENT

/-- drawView: create the DIV, add wrapper and host block classes, mark it
editable, set the translated placeholder as dataset.placeholder, attach the
keyup listener. -/
def drawView (css : CSSNames) (placeholder : String) (api : Api) : Element :=
  let div := createElement
  let div := { div with
    classes := classListAdd (classListAdd div.classes css.wrapper) css.block }
  let div := { div with contentEditable := true }
  let div := { div with datasetPlaceholder := api.i18nT placeholder }
  let div := { div with keyupListeners := div.keyupListeners + 1 }
  div

/-- constructor({data, config, api}): build _CSS from api.styles plus the
fixed plugin class names, resolve the placeholder, draw the view, resolve
preserveBlank, then assign through the data setter a record with the
resolved text and alignment. -/
def construct (data : BlockData) (config : Config) (api : Api) :
    ParagraphState :=
  let css : CSSNames :=
    { block := api.styles.block,
      wrapper := "ce-paragraph",
      settingsWrapper := "cdx-paragraph-settings",
      settingsButton := api.styles.settingsButton,
      settingsButtonActive := api.styles.settingsButtonActive }
  let placeholder := jsOrS config.placeholder DEFAULT_PLACEHOLDER
  let st0 : ParagraphState :=
    { _CSS := css,
      _placeholder := placeholder,
      _data := emptyData,
      _element := drawView css placeholder api,
      _preserveBlank := config.preserveBlank.getD false,
      wrapper := none }
  setData st0 (some
    { text := some (jsOrS data.text ""),
      alignment :=
        some (resolveAlignment data.alignment config.defaultAlignment),
      extra := [] })

/-- render(): return the owned element; no state change. -/
def render (st : ParagraphState) : Element := st._element

/-- merge(data): build {text: this.data.text + data.text} (both reads go
through the data getter) and assign Object.assign(this.data, newData) back
through the data setter. -/
def merge (st : ParagraphState) (data : BlockData) : ParagraphState :=
  let g := getData st
  let newText := jsConcat g.2.text data.text
  let g2 := getData g.1
  let assigned := { g2.2 with text := some newText }
  setData g2.1 (some assigned)

/-- Thrown JS errors that the embedding distinguishes. -/
inductive JsError where
  | typeError
deriving Repr, DecidableEq

/-- validate(savedData) against a given preserveBlank: reading
savedData.text.trim() throws a TypeError when the text key is absent
(undefined has no trim); otherwise return false exactly when the trimmed
text is empty and preserveBlank is false. -/
def validateE (savedData : BlockData) (preserveBlank : Bool) :
    Except JsError Bool :=
  match savedData.text with
  | none => Except.error JsError.typeError
  | some t =>
      if jsTrim t = "" ∧ preserveBlank = false then Except.ok false
      else Except.ok true

/-- validate(savedData) on an instance: uses this._preserveBlank. -/
def validate (st : ParagraphState) (savedData : BlockData) :
    Except JsError Bool :=
  validateE savedData st._preserveBlank

/-- save(toolsContent): Object.assign(this.data, {text:
toolsContent.innerHTML}) — the getter syncs and returns the stored record,
the assign overwrites its text key in place, and that same record is
returned; the setter is not invoked. -/
def save (st : ParagraphState) (toolsContent : Element) :
    ParagraphState × BlockData :=
  let g := getData st
  let assigned := { g.2 with text := some toolsContent.innerHTML }
  ({ g.1 with _data := assigned }, assigned)

/-- onPaste(event): build {text: event.detail.data.innerHTML} and assign
Object.assign(this.data, data) back through the data setter. -/
def onPaste (st : ParagraphState) (pastedData : Element) : ParagraphState :=
  let g := getData st
  let assigned := { g.2 with text := some pastedData.innerHTML }
  setData g.1 (some assigned)

/-- _toggleTune(tune): set this.data.alignment = tune (the getter first
syncs text from the element), then for each settings tune toggle the class
tune.name on this.wrapper. The class never assigns `wrapper`, so on every
constructed instance the first loop iteration dereferences undefined and
throws a TypeError; the returned flag records whether the call threw, and
the returned state is the state at that point. -/
def _toggleTune (st : ParagraphState) (tune : String) :
    ParagraphState × Bool :=
  let st1 := dataSync st
  let st2 := { st1 with _data := { st1._data with alignment := some tune } }
  match st2.wrapper with
  | none => (st2, true)
  | some w =>
      let st3 := dataSync st2
      let w2 := settingsNames.foldl
        (fun e name =>
          let force := dataTruthyProp st3._data name
          { e with classes := classListToggleForce e.classes name force }) w
      ({ st3 with wrapper := some w2 }, false)

/-- Validity of the alignment key of a stored record: present and a member
of the allowed set. -/
def alignmentOk : Option String → Bool
  | some a => decide (a ∈ ALIGNMENTS)
  | none => false

/-- A concrete host api used to evaluate the model on concrete inputs. -/
def sampleApi : Api :=
  { styles :=
      { block := "cdx-block",
        settingsButton := "cdx-settings-button",
        settingsButtonActive := "cdx-settings-button--active" },
    i18nT := fun s => s }

/-- A concrete configuration with every key absent. -/
def cfg0 : Config :=
  { placeholder := none, preserveBlank := none, defaultAlignment := none }

/-- A concrete constructed instance: initial text "Hello ", alignment
center, default configuration. -/
def sampleState : ParagraphState :=
  construct { text := some "Hello ", alignment := some "center", extra := [] }
    cfg0 sampleApi

/-- Every allowed alignment name is a nonempty (JS-truthy) string. -/
theorem mem_ALIGNMENTS_ne_empty (c : String) (hc : c ∈ ALIGNMENTS) :
    c ≠ "" := by
  rcases (by simpa [ALIGNMENTS] using hc :
      c = "left" ∨ c = "center" ∨ c = "right") with rfl | rfl | rfl <;> decide

/-- On a member of the allowed set, the JS fallback keeps the member. -/
theorem jsOrS_of_mem (c : String) (hc : c ∈ ALIGNMENTS) (b : String) :
    jsOrS (some c) b = c := by
  simp [jsOrS, mem_ALIGNMENTS_ne_empty c hc]

/-- The alignment the constructor stores is the resolved one. -/
theorem construct_alignment_eq (data : BlockData) (config : Config)
    (api : Api) :
    (construct data config api)._data.alignment
      = some (resolveAlignment data.alignment config.defaultAlignment) := rfl

/-- When the configured default, if present, is drawn from the allowed set,
the code resolution agrees with the spec priority chain. -/
theorem resolveAlignment_eq_spec (da cf : Option String)
    (h : cf = none ∨ ∃ c, cf = some c ∧ c ∈ ALIGNMENTS) :
    resolveAlignment da cf = resolveAlignmentSpec da cf := by
  have hj : jsOrS cf DEFAULT_ALIGNMENT = cf.getD DEFAULT_ALIGNMENT := by
    rcases h with rfl | ⟨c, rfl, hc⟩
    · rfl
    · simp [jsOrS_of_mem c hc]
  cases da with
  | none => simpa [resolveAlignment, resolveAlignmentSpec] using hj
  | some a =>
      by_cases ha : a ∈ ALIGNMENTS <;>
        simp [resolveAlignment, resolveAlignmentSpec, ha, hj]

/-- The resolved alignment is a member of the allowed set whenever the
configured default, if present, is. -/
theorem resolveAlignment_mem (da cf : Option String)
    (h : cf = none ∨ ∃ c, cf = some c ∧ c ∈ ALIGNMENTS) :
    resolveAlignment da cf ∈ ALIGNMENTS := by
  have hfall : jsOrS cf DEFAULT_ALIGNMENT ∈ ALIGNMENTS := by
    rcases h with rfl | ⟨c, rfl, hc⟩
    · simp [jsOrS, DEFAULT_ALIGNMENT, ALIGNMENTS]
    · simpa [jsOrS_of_mem c hc] using hc
  cases da with
  | none => simpa [resolveAlignment] using hfall
  | some a =>
      by_cases ha : a ∈ ALIGNMENTS <;> simp [resolveAlignment, ha, hfall]

/-- alignmentOk holds exactly on members of the allowed set. -/
theorem alignmentOk_some (a : String) :
    alignmentOk (some a) = true ↔ a ∈ ALIGNMENTS := by
  simp [alignmentOk]

/-- Every branch of the toggle stores the requested alignment. -/
theorem toggleTune_alignment (st : ParagraphState) (tune : String) :
    (_toggleTune st tune).1._data.alignment = some tune := by
  unfold _toggleTune
  cases h : st.wrapper <;> simp [dataSync, h]

/-- Claim C1 (the toggle contract, against the code): on every state whose
`wrapper` property is undefined — which includes every state the constructor
produces, as the final conjunct shows — `_toggleTune` stores the requested
alignment and then throws a TypeError dereferencing `this.wrapper`, leaving
the owned element untouched, so the element never receives the alignment
class the claim requires. -/
theorem toggleTune_sets_alignment_then_throws (st : ParagraphState)
    (tune : String) (h : st.wrapper = none) :
    (_toggleTune st tune).2 = true
    ∧ (_toggleTune st tune).1._data.alignment = some tune
    ∧ (_toggleTune st tune).1._element = st._element
    ∧ ∀ (data : BlockData) (config : Config) (api : Api),
        (construct data config api).wrapper = none := by
  refine ⟨?_, toggleTune_alignment st tune, ?_, fun data config api => rfl⟩ <;>
    simp [_toggleTune, dataSync, h]

/-- Claim C1 witness: the failing call evaluated on the sample instance. -/
theorem toggleTune_sets_alignment_then_throws_witness :
    (_toggleTune sampleState "right").2 = true
    ∧ (_toggleTune sampleState "right").1._data.alignment = some "right"
    ∧ (_toggleTune sampleState "right").1._element = sampleState._element
    ∧ ∀ (data : BlockData) (config : Config) (api : Api),
        (construct data config api).wrapper = none :=
  toggleTune_sets_alignment_then_throws sampleState "right" rfl

/-- Claim C2: with the configuration default, when present, drawn from the
allowed set (the type the configuration contract gives it), the constructor
resolves the stored alignment by the spec priority chain: a valid
data.alignment wins, else the configured default, else left; in particular
data.alignment = center wins over any configured default, and
data.alignment = bogus falls back to the configured default or left. -/
theorem construct_alignment_priority (data : BlockData) (config : Config)
    (api : Api)
    (h : config.defaultAlignment = none ∨
      ∃ c, config.defaultAlignment = some c ∧ c ∈ ALIGNMENTS) :
    (construct data config api)._data.alignment
      = some (resolveAlignmentSpec data.alignment config.defaultAlignment)
    ∧ (data.alignment = some "center" →
        (construct data config api)._data.alignment = some "center")
    ∧ (data.alignment = some "bogus" →
        (construct data config api)._data.alignment
          = some (config.defaultAlignment.getD DEFAULT_ALIGNMENT)) := by
  have hcenter : ("center" : String) ∈ ALIGNMENTS := by decide
  have hbogus : ¬ ("bogus" : String) ∈ ALIGNMENTS := by decide
  refine ⟨?_, ?_, ?_⟩
  · rw [construct_alignment_eq, resolveAlignment_eq_spec _ _ h]
  · intro hc
    rw [construct_alignment_eq, hc]
    simp [resolveAlignment, hcenter]
  · intro hb
    rw [construct_alignment_eq, resolveAlignment_eq_spec _ _ h, hb]
    simp [resolveAlignmentSpec, hbogus]

/-- Claim C2 witness: an invalid data.alignment bogus with configured
default center resolves to center. -/
theorem construct_alignment_priority_witness :
    (construct { text := none, alignment := some "bogus", extra := [] }
        { placeholder := none, preserveBlank := none,
          defaultAlignment := some "center" } sampleApi)._data.alignment
      = some "center" := by
  have h := construct_alignment_priority
    { text := none, alignment := some "bogus", extra := [] }
    { placeholder := none, preserveBlank := none,
      defaultAlignment := some "center" }
    sampleApi (Or.inr ⟨"center", rfl, by decide⟩)
  simpa using h.2.2 rfl

/-- Claim C3: on saved data whose text is a string, validate returns false
exactly when the trimmed text is empty and the resolved preserveBlank is
false, and true in every other case; the constructor resolves preserveBlank
to config.preserveBlank when that key is set and to false otherwise. -/
theorem validate_blank_policy (st : ParagraphState) (t : String)
    (al : Option String) (ex : List (String × String)) :
    (validate st { text := some t, alignment := al, extra := ex }
        = Except.ok false ↔ (jsTrim t = "" ∧ st._preserveBlank = false))
    ∧ (validate st { text := some t, alignment := al, extra := ex }
        = Except.ok true ↔ ¬(jsTrim t = "" ∧ st._preserveBlank = false))
    ∧ ∀ (data : BlockData) (config : Config) (api : Api),
        (construct data config api)._preserveBlank
          = config.preserveBlank.getD false := by
  refine ⟨?_, ?_, fun data config api => rfl⟩ <;>
    · unfold validate validateE
      by_cases h : jsTrim t = "" ∧ st._preserveBlank = false <;> simp [h]

/-- Claim C4 counterexample: constructing with no data alignment and the
arbitrary host value defaultAlignment = bogus stores alignment bogus, which
is not one of the three allowed values, refuting the claim as stated. -/
theorem construct_alignment_escapes_enum :
    (construct emptyData
        { placeholder := none, preserveBlank := none,
          defaultAlignment := some "bogus" } sampleApi)._data.alignment
      = some "bogus"
    ∧ ("bogus" ∈ ALIGNMENTS → False) :=
  ⟨rfl, by decide⟩

/-- Claim C4 (amended): when the configured default alignment, if provided,
is itself one of the allowed values, the stored alignment is one of
left, center, right after construction for every data input, and validity of
the stored alignment is preserved by merge, onPaste, save, the settings
click toggle, and the data read. -/
theorem alignment_enum_invariant (data : BlockData) (config : Config)
    (api : Api)
    (h : config.defaultAlignment = none ∨
      ∃ c, config.defaultAlignment = some c ∧ c ∈ ALIGNMENTS) :
    alignmentOk (construct data config api)._data.alignment = true
    ∧ (∀ (st : ParagraphState) (inc : BlockData),
        alignmentOk st._data.alignment = true →
        alignmentOk (merge st inc)._data.alignment = true)
    ∧ (∀ (st : ParagraphState) (pasted : Element),
        alignmentOk st._data.alignment = true →
        alignmentOk (onPaste st pasted)._data.alignment = true)
    ∧ (∀ (st : ParagraphState) (c : Element),
        alignmentOk st._data.alignment = true →
        alignmentOk (save st c).1._data.alignment = true
        ∧ alignmentOk (save st c).2.alignment = true)
    ∧ (∀ (st : ParagraphState) (tune : String), tune ∈ settingsNames →
        alignmentOk (_toggleTune st tune).1._data.alignment = true)
    ∧ (∀ st : ParagraphState,
        alignmentOk st._data.alignment = true →
        alignmentOk (getData st).1._data.alignment = true
        ∧ alignmentOk (getData st).2.alignment = true) := by
  refine ⟨?_, fun st inc hst => hst, fun st p hst => hst,
    fun st c hst => ⟨hst, hst⟩, ?_, fun st hst => ⟨hst, hst⟩⟩
  · rw [construct_alignment_eq]
    exact (alignmentOk_some _).mpr (resolveAlignment_mem _ _ h)
  · intro st tune htune
    rw [toggleTune_alignment]
    exact (alignmentOk_some _).mpr (by simpa [settingsNames, ALIGNMENTS]
      using htune)

/-- Claim C4 witness: the amended invariant at construction with every
configuration key absent. -/
theorem alignment_enum_invariant_witness :
    alignmentOk (construct emptyData cfg0 sampleApi)._data.alignment = true :=
  (alignment_enum_invariant emptyData cfg0 sampleApi (Or.inl rfl)).1

/-- Claim C5: merging a record carrying a text field appends the incoming
text to the current stored text as read through the data getter (that is,
the element markup), and leaves the stored alignment and every other key
unchanged. -/
theorem merge_concats_text (st : ParagraphState) (incoming : BlockData)
    (s : String) (h : incoming.text = some s) :
    (merge st incoming)._data.text = some (st._element.innerHTML ++ s)
    ∧ (merge st incoming)._data.alignment = st._data.alignment
    ∧ (merge st incoming)._data.extra = st._data.extra := by
  refine ⟨?_, rfl, rfl⟩
  simp [merge, getData, dataSync, setData, jsConcat, h]

/-- Claim C5 witness: merging text World onto the sample instance whose
markup is Hello yields Hello World with the alignment untouched. -/
theorem merge_concats_text_witness :
    (merge sampleState
        { text := some "World", alignment := none, extra := [] })._data.text
      = some "Hello World"
    ∧ (merge sampleState
        { text := some "World", alignment := none,
          extra := [] })._data.alignment
      = sampleState._data.alignment := by
  have h := merge_concats_text sampleState
    { text := some "World", alignment := none, extra := [] } "World" rfl
  exact ⟨h.1.trans (by decide), h.2.1⟩

/-- Claim C6: constructing with text t and a valid alignment a, then reading
the data property, returns text t (read back from the element markup after
having been written into it) and alignment a. -/
theorem construct_data_roundtrip (t a : String) (ex : List (String × String))
    (config : Config) (api : Api) (h : a ∈ ALIGNMENTS) :
    (getData (construct { text := some t, alignment := some a, extra := ex }
        config api)).2.text = some t
    ∧ (getData (construct { text := some t, alignment := some a, extra := ex }
        config api)).2.alignment = some a := by
  have hself : jsOrS (some (jsOrS (some t) "")) "" = t := by
    by_cases ht : t = "" <;> simp [jsOrS, ht]
  constructor
  · simp [getData, dataSync, construct, setData, hself]
  · have hcast : (getData (construct { text := some t, alignment := some a, extra := ex } config api)).2.alignment = (construct { text := some t, alignment := some a, extra := ex } config api)._data.alignment := rfl
    rw [hcast, construct_alignment_eq]
    simp [resolveAlignment, h]

/-- Claim C6 witness: the round-trip at text with markup and alignment
right. -/
theorem construct_data_roundtrip_witness :
    (getData (construct { text := some "<b>hi</b>", alignment := some "right", extra := [] } cfg0 sampleApi)).2.text
      = some "<b>hi</b>"
    ∧ (getData (construct { text := some "<b>hi</b>", alignment := some "right", extra := [] } cfg0 sampleApi)).2.alignment
      = some "right" :=
  construct_data_roundtrip "<b>hi</b>" "right" [] cfg0 sampleApi (by decide)

/-- Claim C7: save returns the stored record itself (the post-state _data,
the same object Object.assign mutated and returned), with its text
overwritten by the container markup and every other key — the alignment and
any further keys — unchanged. -/
theorem save_returns_stored_record (st : ParagraphState)
    (toolsContent : Element) :
    (save st toolsContent).2 = (save st toolsContent).1._data
    ∧ (save st toolsContent).2.text = some toolsContent.innerHTML
    ∧ (save st toolsContent).2.alignment = st._data.alignment
    ∧ (save st toolsContent).2.extra = st._data.extra :=
  ⟨rfl, rfl, rfl, rfl⟩

/-- Claim C8: onPaste overwrites only the text key of the stored record with
the markup of the pasted element; the alignment and every other key are
unchanged. -/
theorem onPaste_overwrites_text_only (st : ParagraphState)
    (pasted : Element) :
    (onPaste st pasted)._data.text = some pasted.innerHTML
    ∧ (onPaste st pasted)._data.alignment = st._data.alignment
    ∧ (onPaste st pasted)._data.extra = st._data.extra :=
  ⟨rfl, rfl, rfl⟩

/-- Claim C9 counterexample: constructing with alignment right leaves the
owned element with exactly the wrapper and host block classes; the resolved
alignment right is not applied as a class, refuting the claim as stated. -/
theorem construct_no_alignment_class :
    (construct { text := some "hi", alignment := some "right", extra := [] } cfg0 sampleApi)._element.classes
      = ["ce-paragraph", "cdx-block"]
    ∧ ("right" ∈ (construct { text := some "hi", alignment := some "right", extra := [] } cfg0 sampleApi)._element.classes
        → False) :=
  ⟨rfl, by decide⟩

/-- Claim C9 (amended): view construction adds the wrapper and host block
classes and no others — in particular no alignment class — marks the element
editable, sets the translated placeholder as the dataset placeholder,
attaches one key-up listener, and render returns this same element
unchanged. -/
theorem construct_view_shape (data : BlockData) (config : Config)
    (api : Api) :
    "ce-paragraph" ∈ (construct data config api)._element.classes
    ∧ api.styles.block ∈ (construct data config api)._element.classes
    ∧ (∀ c ∈ (construct data config api)._element.classes,
        c = "ce-paragraph" ∨ c = api.styles.block)
    ∧ (construct data config api)._element.contentEditable = true
    ∧ (construct data config api)._element.datasetPlaceholder
        = api.i18nT (jsOrS config.placeholder DEFAULT_PLACEHOLDER)
    ∧ (construct data config api)._element.keyupListeners = 1
    ∧ render (construct data config api)
        = (construct data config api)._element := by
  have hcl : (construct data config api)._element.classes
      = classListAdd (classListAdd [] "ce-paragraph") api.styles.block := rfl
  refine ⟨?_, ?_, ?_, rfl, rfl, rfl, rfl⟩ <;>
    · rw [hcl]
      by_cases hb : api.styles.block = "ce-paragraph" <;>
        simp [classListAdd, hb]

/-- Claim C10: validate is total exactly on saved data whose text key holds
a string: with the text key absent it throws a TypeError (undefined has no
trim), and with a string text it always returns a boolean. -/
theorem validate_total_on_string_text (st : ParagraphState) (d : BlockData) :
    (d.text = none → validate st d = Except.error JsError.typeError)
    ∧ (∀ t, d.text = some t → ∃ b, validate st d = Except.ok b) := by
  constructor
  · intro h
    simp [validate, validateE, h]
  · intro t h
    unfold validate validateE
    rw [h]
    by_cases hc : jsTrim t = "" ∧ st._preserveBlank = false
    · exact ⟨false, by simp [hc]⟩
    · exact ⟨true, by simp [hc]⟩

/-- Claim C10 witness: the empty record makes validate throw; a record with
string text returns a boolean. -/
theorem validate_total_on_string_text_witness :
    validate sampleState emptyData = Except.error JsError.typeError
    ∧ ∃ b, validate sampleState { text := some "hi", alignment := none, extra := [] } = Except.ok b :=
  ⟨(validate_total_on_string_text sampleState emptyData).1 rfl,
   (validate_total_on_string_text sampleState
      { text := some "hi", alignment := none, extra := [] }).2 "hi" rfl⟩

end Paragraph
